import Mathlib

/-!
Shallow embedding of the scroll-view controller in src/views/scroll.rs
(floem). Geometry is embedded over the rationals: every `f64` coordinate
becomes a `ℚ`, `f64::ceil` becomes `Int.ceil`, and kurbo's `Point`,
`Vec2`, `Size` and `Rect` become the corresponding record types below.
Field and function names follow the Rust source.
-/

namespace FloemScroll

/-- kurbo `Point`: a 2D position. -/
structure Point where
  x : ℚ
  y : ℚ
deriving DecidableEq

/-- kurbo `Vec2`: a 2D displacement. -/
structure Vec2 where
  x : ℚ
  y : ℚ
deriving DecidableEq

/-- kurbo `Size`: a width/height pair. -/
structure Size where
  width : ℚ
  height : ℚ
deriving DecidableEq

/-- kurbo `Rect`: an axis-aligned rectangle given by its two corners. -/
structure Rect where
  x0 : ℚ
  y0 : ℚ
  x1 : ℚ
  y1 : ℚ
deriving DecidableEq

namespace Rect

/-- kurbo `Rect::width`. -/
def width (r : Rect) : ℚ := r.x1 - r.x0

/-- kurbo `Rect::height`. -/
def height (r : Rect) : ℚ := r.y1 - r.y0

/-- kurbo `Rect::size`. -/
def size (r : Rect) : Size := ⟨r.width, r.height⟩

/-- kurbo `Rect::origin` (the `(x0, y0)` corner). -/
def origin (r : Rect) : Point := ⟨r.x0, r.y0⟩

/-- kurbo `Rect::with_origin`: move the rectangle, keeping its size. -/
def with_origin (r : Rect) (p : Point) : Rect :=
  ⟨p.x, p.y, p.x + r.width, p.y + r.height⟩

/-- kurbo `Rect::with_size`: resize the rectangle, keeping its origin. -/
def with_size (r : Rect) (s : Size) : Rect :=
  ⟨r.x0, r.y0, r.x0 + s.width, r.y0 + s.height⟩

/-- kurbo `impl Add<Vec2> for Rect`: translate by a vector. -/
def translate (r : Rect) (v : Vec2) : Rect :=
  ⟨r.x0 + v.x, r.y0 + v.y, r.x1 + v.x, r.y1 + v.y⟩

/-- kurbo `Rect::contains`: half-open membership test for a point. -/
def contains (r : Rect) (p : Point) : Bool :=
  decide (r.x0 ≤ p.x ∧ p.x < r.x1 ∧ r.y0 ≤ p.y ∧ p.y < r.y1)

/-- kurbo `Rect::min_x` (used by `pan_to_visible`). -/
def min_x (r : Rect) : ℚ := min r.x0 r.x1

/-- kurbo `Rect::max_x`. -/
def max_x (r : Rect) : ℚ := max r.x0 r.x1

/-- kurbo `Rect::min_y`. -/
def min_y (r : Rect) : ℚ := min r.y0 r.y1

/-- kurbo `Rect::max_y`. -/
def max_y (r : Rect) : ℚ := max r.y0 r.y1

end Rect

/-- `Point + Vec2` (kurbo `impl Add<Vec2> for Point`). -/
def Point.addVec (p : Point) (v : Vec2) : Point := ⟨p.x + v.x, p.y + v.y⟩

/-- kurbo `Point::to_vec2`. -/
def Point.to_vec2 (p : Point) : Vec2 := ⟨p.x, p.y⟩

/-- `const SCROLLBAR_MIN_SIZE: f64 = 10.0` — minimum scrollbar length on
its primary axis. -/
def SCROLLBAR_MIN_SIZE : ℚ := 10

/-- `enum BarHeldState`: which scrollbar, if any, is being dragged.
The payload is the initial pointer offset on the drag axis and the
scroll offset at drag start. -/
inductive BarHeldState where
  | none
  | vertical (offset : ℚ) (initial_scroll_offset : Vec2)
  | horizontal (offset : ℚ) (initial_scroll_offset : Vec2)
deriving DecidableEq

/-- `struct ScrollBarStyle`, restricted to the fields the control logic
reads (`color`, `rounded` and `edge_width` only affect painting). -/
structure ScrollBarStyle where
  hide : Bool
  thickness : ℚ
deriving DecidableEq

/-- The state of `struct Scroll` that the geometry and event logic read
and write: sizes, the viewport, the drag state and the two behaviour
flags.  (`id`, `child`, `onscroll`, `virtual_node` are handles into the
external collaborators and carry no geometry.) -/
structure ScrollData where
  size : Size
  actual_rect : Rect
  child_size : Size
  child_viewport : Rect
  held : BarHeldState
  propagate_pointer_wheel : Bool
  vertical_scroll_as_horizontal : Bool
  scroll_bar_style : ScrollBarStyle
deriving DecidableEq

/-- `Scroll::clamp_child_viewport`: clamp a candidate viewport per axis
into the scrollable range and force its size to `actual_rect`'s size.
The Rust method also notifies the child / requests layout / fires
`on_scroll` when the viewport changed; those external effects carry no
state modelled here, so the function returns the updated `Scroll`
state. -/
def clamp_child_viewport (s : ScrollData) (child_viewport : Rect) : ScrollData :=
  let actual_rect := s.actual_rect
  let actual_size := actual_rect.size
  let width := actual_rect.width
  let height := actual_rect.height
  let child_size := s.child_size
  let cv1 :=
    if width ≥ child_size.width then
      { child_viewport with x0 := 0 }
    else if child_viewport.x0 > child_size.width - width then
      { child_viewport with x0 := child_size.width - width }
    else if child_viewport.x0 < 0 then
      { child_viewport with x0 := 0 }
    else child_viewport
  let cv2 :=
    if height ≥ child_size.height then
      { cv1 with y0 := 0 }
    else if cv1.y0 > child_size.height - height then
      { cv1 with y0 := child_size.height - height }
    else if cv1.y0 < 0 then
      { cv1 with y0 := 0 }
    else cv1
  let cv3 := cv2.with_size actual_size
  { s with child_viewport := cv3 }

/-- `Scroll::scroll_delta`: move the viewport origin by a vector, then
clamp. -/
def scroll_delta (s : ScrollData) (delta : Vec2) : ScrollData :=
  let new_origin := s.child_viewport.origin.addVec delta
  clamp_child_viewport s (s.child_viewport.with_origin new_origin)

/-- `Scroll::scroll_to`: move the viewport origin to a point, then
clamp. -/
def scroll_to (s : ScrollData) (origin : Point) : ScrollData :=
  clamp_child_viewport s (s.child_viewport.with_origin origin)

/-- Helper `closest_on_axis` inside `Scroll::pan_to_visible`: the delta
moving `val` between the `min`/`max` edges, `0` if already between. -/
def closest_on_axis (val minv maxv : ℚ) : ℚ :=
  if val > minv ∧ val < maxv then 0
  else if val ≤ minv then val - minv
  else val - maxv

/-- `Scroll::pan_to_visible`: pan the smallest distance making the
target rect visible, preferring the region closest to its origin when
the rect is larger than the viewport. -/
def pan_to_visible (s : ScrollData) (rect : Rect) : ScrollData :=
  let target_size : Size :=
    ⟨min rect.width s.child_viewport.width,
     min rect.height s.child_viewport.height⟩
  let rect := rect.with_size target_size
  let x0 := closest_on_axis rect.min_x s.child_viewport.min_x s.child_viewport.max_x
  let x1 := closest_on_axis rect.max_x s.child_viewport.min_x s.child_viewport.max_x
  let y0 := closest_on_axis rect.min_y s.child_viewport.min_y s.child_viewport.max_y
  let y1 := closest_on_axis rect.max_y s.child_viewport.min_y s.child_viewport.max_y
  let delta_x := if |x0| > |x1| then x0 else x1
  let delta_y := if |y0| > |y1| then y0 else y1
  let new_origin := s.child_viewport.origin.addVec ⟨delta_x, delta_y⟩
  clamp_child_viewport s (s.child_viewport.with_origin new_origin)

/-- `Scroll::calc_vertical_bar_bounds`: thumb rectangle of the vertical
scrollbar, absent when the viewport is at least as tall as the
content. -/
def calc_vertical_bar_bounds (s : ScrollData) : Option Rect :=
  let viewport_size := s.child_viewport.size
  let content_size := s.child_size
  let scroll_offset := s.child_viewport.origin.to_vec2
  if viewport_size.height ≥ content_size.height then none
  else
    let bar_width := s.scroll_bar_style.thickness
    let bar_pad : ℚ := 0
    let percent_visible := viewport_size.height / content_size.height
    let percent_scrolled := scroll_offset.y / (content_size.height - viewport_size.height)
    let length : ℚ := (⌈percent_visible * viewport_size.height⌉ : ℤ)
    let length := max length s.scroll_bar_style.thickness
    let top_y_offset : ℚ := (⌈(viewport_size.height - length) * percent_scrolled⌉ : ℤ)
    let bottom_y_offset := top_y_offset + length
    some ⟨scroll_offset.x + viewport_size.width - bar_width - bar_pad,
          scroll_offset.y + top_y_offset,
          scroll_offset.x + viewport_size.width - bar_pad,
          scroll_offset.y + bottom_y_offset⟩

/-- `Scroll::calc_horizontal_bar_bounds`: thumb rectangle of the
horizontal scrollbar, absent when the viewport is at least as wide as
the content.  When the vertical bar is also present the track is
shortened by `horizontal_padding` to leave room for it. -/
def calc_horizontal_bar_bounds (s : ScrollData) : Option Rect :=
  let viewport_size := s.child_viewport.size
  let content_size := s.child_size
  let scroll_offset := s.child_viewport.origin.to_vec2
  if viewport_size.width ≥ content_size.width then none
  else
    let bar_width := s.scroll_bar_style.thickness
    let bar_pad : ℚ := 0
    let percent_visible := viewport_size.width / content_size.width
    let percent_scrolled := scroll_offset.x / (content_size.width - viewport_size.width)
    let length : ℚ := (⌈percent_visible * viewport_size.width⌉ : ℤ)
    let length := max length SCROLLBAR_MIN_SIZE
    let horizontal_padding :=
      if viewport_size.height ≥ content_size.height then 0
      else bar_pad + bar_pad + bar_width
    let left_x_offset : ℚ :=
      (⌈(viewport_size.width - length - horizontal_padding) * percent_scrolled⌉ : ℤ)
    let right_x_offset := left_x_offset + length
    some ⟨scroll_offset.x + left_x_offset,
          scroll_offset.y + viewport_size.height - bar_width - bar_pad,
          scroll_offset.x + right_x_offset,
          scroll_offset.y + viewport_size.height - bar_pad⟩

/-- `Scroll::click_vertical_bar_area`: page jump — scroll so that the
clicked point's proportional content position becomes the centre of the
viewport (hence, proportionally, of the thumb). -/
def click_vertical_bar_area (s : ScrollData) (pos : Point) : ScrollData :=
  let new_y := pos.y / s.actual_rect.height * s.child_size.height - s.actual_rect.height / 2
  let new_origin : Point := ⟨s.child_viewport.origin.x, new_y⟩
  scroll_to s new_origin

/-- `Scroll::click_horizontal_bar_area`: horizontal page jump. -/
def click_horizontal_bar_area (s : ScrollData) (pos : Point) : ScrollData :=
  let new_x := pos.x / s.actual_rect.width * s.child_size.width - s.actual_rect.width / 2
  let new_origin : Point := ⟨new_x, s.child_viewport.origin.y⟩
  scroll_to s new_origin

/-- `Scroll::point_within_vertical_bar`: is the (content-relative)
position inside the vertical bar's band, stretched to the widget
edge? -/
def point_within_vertical_bar (s : ScrollData) (pos : Point) : Bool :=
  let viewport_size := s.child_viewport.size
  let scroll_offset := s.child_viewport.origin.to_vec2
  match calc_vertical_bar_bounds s with
  | some bounds =>
      decide (bounds.x0 ≤ pos.x ∧ pos.x ≤ scroll_offset.x + viewport_size.width)
  | none => false

/-- `Scroll::point_within_horizontal_bar`. -/
def point_within_horizontal_bar (s : ScrollData) (pos : Point) : Bool :=
  let viewport_size := s.child_viewport.size
  let scroll_offset := s.child_viewport.origin.to_vec2
  match calc_horizontal_bar_bounds s with
  | some bounds =>
      decide (bounds.y0 ≤ pos.y ∧ pos.y ≤ scroll_offset.y + viewport_size.height)
  | none => false

/-- `Scroll::point_hits_vertical_bar`: does the position hit the
vertical thumb rectangle (hitbox stretched to the widget edge)? -/
def point_hits_vertical_bar (s : ScrollData) (pos : Point) : Bool :=
  let viewport_size := s.child_viewport.size
  let scroll_offset := s.child_viewport.origin.to_vec2
  match calc_vertical_bar_bounds s with
  | some bounds =>
      ({ bounds with x1 := scroll_offset.x + viewport_size.width } : Rect).contains pos
  | none => false

/-- `Scroll::point_hits_horizontal_bar`. -/
def point_hits_horizontal_bar (s : ScrollData) (pos : Point) : Bool :=
  let viewport_size := s.child_viewport.size
  let scroll_offset := s.child_viewport.origin.to_vec2
  match calc_horizontal_bar_bounds s with
  | some bounds =>
      ({ bounds with y1 := scroll_offset.y + viewport_size.height } : Rect).contains pos
  | none => false

/-- `Scroll::are_bars_held`. -/
def are_bars_held (s : ScrollData) : Bool :=
  match s.held with
  | .none => false
  | _ => true

/-- `Scroll::update_size` followed by the re-clamp in
`View::compute_layout`.  The assigned box size, the resolved padding
insets and the child's measured size come from the external layout
engine and are taken as parameters (percentage padding is resolved by
the caller, as in the source). -/
def compute_layout (s : ScrollData) (layout_size : Size)
    (padding_left padding_right padding_top padding_bottom : ℚ)
    (new_child_size : Size) : ScrollData :=
  let actual_rect : Rect :=
    ⟨padding_left, padding_top,
     layout_size.width - padding_right, layout_size.height - padding_bottom⟩
  let s1 : ScrollData :=
    { s with
      child_size := new_child_size
      size := layout_size
      actual_rect := actual_rect }
  clamp_child_viewport s1 s1.child_viewport

/-- The pointer and wheel events handled by `View::event` for `Scroll`.
`primary` is `event.button.is_primary()`. -/
inductive Event where
  | pointerDown (pos : Point) (primary : Bool)
  | pointerUp (pos : Point)
  | pointerMove (pos : Point)
  | pointerWheel (delta : Vec2)
deriving DecidableEq

/-- `View::event` for `Scroll`.  `child_handles` stands for
`cx.should_send(child) && child.event_main(..)` (the opaque child
consuming the event) and `listener_handles` for a registered
pointer-wheel listener returning `true`; both are external
collaborators.  Returns the updated state and the `bool` the method
returns (event consumed). -/
def handle_event (s : ScrollData) (e : Event)
    (child_handles listener_handles : Bool) : ScrollData × Bool :=
  let viewport_size := s.child_viewport.size
  let scroll_offset := s.child_viewport.origin.to_vec2
  let content_size := s.child_size
  match e with
  | .pointerDown pos primary =>
      if s.scroll_bar_style.hide = false ∧ primary = true then
        let s1 := { s with held := BarHeldState.none }
        let p := pos.addVec scroll_offset
        if point_within_vertical_bar s1 p then
          if point_hits_vertical_bar s1 p then
            ({ s1 with held := BarHeldState.vertical pos.y scroll_offset }, true)
          else
            let s2 := click_vertical_bar_area s1 pos
            let scroll_offset2 := s2.child_viewport.origin.to_vec2
            ({ s2 with held := BarHeldState.vertical pos.y scroll_offset2 }, true)
        else if point_within_horizontal_bar s1 p then
          if point_hits_horizontal_bar s1 p then
            ({ s1 with held := BarHeldState.horizontal pos.x scroll_offset }, true)
          else
            let s2 := click_horizontal_bar_area s1 pos
            let scroll_offset2 := s2.child_viewport.origin.to_vec2
            ({ s2 with held := BarHeldState.horizontal pos.x scroll_offset2 }, true)
        else (s1, child_handles)
      else (s, child_handles)
  | .pointerUp _ => ({ s with held := BarHeldState.none }, child_handles)
  | .pointerMove pos =>
      if s.scroll_bar_style.hide = false then
        match s.held with
        | BarHeldState.vertical offset initial_scroll_offset =>
            let scale_y := viewport_size.height / content_size.height
            let y := initial_scroll_offset.y + (pos.y - offset) / scale_y
            (clamp_child_viewport s
              (s.child_viewport.with_origin ⟨initial_scroll_offset.x, y⟩),
             child_handles)
        | BarHeldState.horizontal offset initial_scroll_offset =>
            let scale_x := viewport_size.width / content_size.width
            let x := initial_scroll_offset.x + (pos.x - offset) / scale_x
            (clamp_child_viewport s
              (s.child_viewport.with_origin ⟨x, initial_scroll_offset.y⟩),
             child_handles)
        | BarHeldState.none =>
            let p := pos.addVec scroll_offset
            if point_within_vertical_bar s p ∨ point_within_horizontal_bar s p then
              (s, true)
            else (s, child_handles)
      else (s, child_handles)
  | .pointerWheel delta =>
      if child_handles then (s, true)
      else if listener_handles then (s, true)
      else
        let delta :=
          if s.vertical_scroll_as_horizontal = true ∧ delta.x = 0 ∧ delta.y ≠ 0 then
            Vec2.mk delta.y delta.x
          else delta
        (clamp_child_viewport s (s.child_viewport.translate delta),
         !s.propagate_pointer_wheel)

/-- Fold a sequence of events (each with its external child/listener
outcome) through `handle_event`, keeping the resulting state. -/
def process_events (s : ScrollData) (es : List (Event × Bool × Bool)) : ScrollData :=
  List.foldl (fun st e => (handle_event st e.1 e.2.1 e.2.2).1) s es

/-- The per-axis rule implemented by `clamp_child_viewport`: pin to `0`
when the viewport covers the content, otherwise clamp the candidate
into `[0, content_length - viewport_length]` (upper bound checked
first, as in the source). -/
def clamp_axis (viewport_length content_length candidate : ℚ) : ℚ :=
  if viewport_length ≥ content_length then 0
  else if candidate > content_length - viewport_length then
    content_length - viewport_length
  else if candidate < 0 then 0
  else candidate

theorem clamp_child_viewport_eq (s : ScrollData) (r : Rect) :
    clamp_child_viewport s r =
    { s with child_viewport :=
        ⟨clamp_axis s.actual_rect.width s.child_size.width r.x0,
         clamp_axis s.actual_rect.height s.child_size.height r.y0,
         clamp_axis s.actual_rect.width s.child_size.width r.x0 + s.actual_rect.width,
         clamp_axis s.actual_rect.height s.child_size.height r.y0 + s.actual_rect.height⟩ } := by
  obtain ⟨rx0, ry0, rx1, ry1⟩ := r
  simp only [clamp_child_viewport, clamp_axis, Rect.with_size, Rect.size,
    Rect.width, Rect.height]
  split_ifs <;> rfl

/-- The core data-model invariant: the viewport's size equals
`actual_rect`'s size and, per axis, its origin lies in
`[0, content - size]`, pinned to `0` when the content fits. -/
def viewport_invariant (s : ScrollData) : Prop :=
  s.child_viewport.width = s.actual_rect.width ∧
  s.child_viewport.height = s.actual_rect.height ∧
  (s.child_size.width ≤ s.actual_rect.width → s.child_viewport.x0 = 0) ∧
  (s.actual_rect.width < s.child_size.width →
    0 ≤ s.child_viewport.x0 ∧
    s.child_viewport.x0 ≤ s.child_size.width - s.actual_rect.width) ∧
  (s.child_size.height ≤ s.actual_rect.height → s.child_viewport.y0 = 0) ∧
  (s.actual_rect.height < s.child_size.height →
    0 ≤ s.child_viewport.y0 ∧
    s.child_viewport.y0 ≤ s.child_size.height - s.actual_rect.height)

instance (s : ScrollData) : Decidable (viewport_invariant s) := by
  unfold viewport_invariant
  infer_instance

theorem clamp_axis_pin (viewport_length content_length candidate : ℚ)
    (h : content_length ≤ viewport_length) :
    clamp_axis viewport_length content_length candidate = 0 := by
  simp [clamp_axis, h]

theorem clamp_axis_mem (viewport_length content_length candidate : ℚ)
    (h : viewport_length < content_length) :
    0 ≤ clamp_axis viewport_length content_length candidate ∧
    clamp_axis viewport_length content_length candidate ≤
      content_length - viewport_length := by
  unfold clamp_axis
  rw [if_neg (by linarith)]
  split_ifs with h1 h2 <;> constructor <;> linarith

/-- `clamp_child_viewport` establishes the invariant for any input. -/
theorem clamp_establishes_invariant (s : ScrollData) (r : Rect) :
    viewport_invariant (clamp_child_viewport s r) := by
  rw [clamp_child_viewport_eq]
  unfold viewport_invariant
  simp only [Rect.width, Rect.height]
  refine ⟨by ring, by ring, ?_, ?_, ?_, ?_⟩
  · intro h
    exact clamp_axis_pin _ _ _ h
  · intro h
    exact clamp_axis_mem _ _ _ h
  · intro h
    exact clamp_axis_pin _ _ _ h
  · intro h
    exact clamp_axis_mem _ _ _ h

/-- A state satisfying the invariant is a fixed point of re-clamping
its own viewport. -/
theorem clamp_fixed_of_invariant (s : ScrollData) (h : viewport_invariant s) :
    clamp_child_viewport s s.child_viewport = s := by
  obtain ⟨hw, hh, hxpin, hxmem, hypin, hymem⟩ := h
  rw [clamp_child_viewport_eq]
  have hx : clamp_axis s.actual_rect.width s.child_size.width s.child_viewport.x0 =
      s.child_viewport.x0 := by
    unfold clamp_axis
    rcases le_or_lt s.child_size.width s.actual_rect.width with hc | hc
    · rw [if_pos hc, hxpin hc]
    · obtain ⟨h0, h1⟩ := hxmem hc
      rw [if_neg (by linarith), if_neg (by linarith), if_neg (by linarith)]
  have hy : clamp_axis s.actual_rect.height s.child_size.height s.child_viewport.y0 =
      s.child_viewport.y0 := by
    unfold clamp_axis
    rcases le_or_lt s.child_size.height s.actual_rect.height with hc | hc
    · rw [if_pos hc, hypin hc]
    · obtain ⟨h0, h1⟩ := hymem hc
      rw [if_neg (by linarith), if_neg (by linarith), if_neg (by linarith)]
  have hx1 : s.child_viewport.x0 + s.actual_rect.width = s.child_viewport.x1 := by
    have := hw
    unfold Rect.width at this ⊢
    linarith
  have hy1 : s.child_viewport.y0 + s.actual_rect.height = s.child_viewport.y1 := by
    have := hh
    unfold Rect.height at this ⊢
    linarith
  obtain ⟨sz, ar, cs, cv, hd, pw, vh, st⟩ := s
  simp only at hx hy hx1 hy1 ⊢
  rw [hx, hy, hx1, hy1]

/-- Example state from the spec's scenarios: content `1000×1000`,
viewport `100×100` at origin `(0,0)`, default bar thickness `10`. -/
def exState : ScrollData :=
  { size := ⟨100, 100⟩
    actual_rect := ⟨0, 0, 100, 100⟩
    child_size := ⟨1000, 1000⟩
    child_viewport := ⟨0, 0, 100, 100⟩
    held := BarHeldState.none
    propagate_pointer_wheel := false
    vertical_scroll_as_horizontal := false
    scroll_bar_style := ⟨false, 10⟩ }

/-- Same geometry scrolled to origin `(450, 0)`. -/
def exStateScrolled : ScrollData :=
  { exState with child_viewport := ⟨450, 0, 550, 100⟩ }

/-- Same geometry with the axis-swap flag set. -/
def exStateSwap : ScrollData :=
  { exState with vertical_scroll_as_horizontal := true }

/-- C1: per axis independently, if the viewport length is at least the
content length the clamped origin is `0` for every candidate; otherwise
(content ≥ viewport > 0) the clamped origin lies in
`[0, content_length - viewport_length]`. -/
theorem clamp_origin_bounds (s : ScrollData) (r : Rect) :
    (s.child_size.width ≤ s.actual_rect.width →
      (clamp_child_viewport s r).child_viewport.x0 = 0) ∧
    (s.actual_rect.width < s.child_size.width → 0 < s.actual_rect.width →
      0 ≤ (clamp_child_viewport s r).child_viewport.x0 ∧
      (clamp_child_viewport s r).child_viewport.x0 ≤
        s.child_size.width - s.actual_rect.width) ∧
    (s.child_size.height ≤ s.actual_rect.height →
      (clamp_child_viewport s r).child_viewport.y0 = 0) ∧
    (s.actual_rect.height < s.child_size.height → 0 < s.actual_rect.height →
      0 ≤ (clamp_child_viewport s r).child_viewport.y0 ∧
      (clamp_child_viewport s r).child_viewport.y0 ≤
        s.child_size.height - s.actual_rect.height) := by
  rw [clamp_child_viewport_eq]
  exact ⟨fun h => clamp_axis_pin _ _ _ h,
         fun h _ => clamp_axis_mem _ _ _ h,
         fun h => clamp_axis_pin _ _ _ h,
         fun h _ => clamp_axis_mem _ _ _ h⟩

/-- Witness for C1 at the spec scenario: candidate origin `(950, 950)`
with content `1000×1000` and viewport `100×100` stays within
`[0, 900]` on the x axis. -/
theorem clamp_origin_bounds_witness :
    0 ≤ (clamp_child_viewport exState ⟨950, 950, 1050, 1050⟩).child_viewport.x0 ∧
    (clamp_child_viewport exState ⟨950, 950, 1050, 1050⟩).child_viewport.x0 ≤
      exState.child_size.width - exState.actual_rect.width :=
  (clamp_origin_bounds exState ⟨950, 950, 1050, 1050⟩).2.1
    (by norm_num [exState, Rect.width]) (by norm_num [exState, Rect.width])

/-- C3: `clamp` is idempotent: re-clamping the clamped viewport is the
identity, and applying the same candidate twice equals applying it
once. -/
theorem clamp_idempotent (s : ScrollData) (r : Rect) :
    clamp_child_viewport (clamp_child_viewport s r)
        ((clamp_child_viewport s r).child_viewport) = clamp_child_viewport s r ∧
    clamp_child_viewport (clamp_child_viewport s r) r = clamp_child_viewport s r := by
  constructor
  · exact clamp_fixed_of_invariant _ (clamp_establishes_invariant s r)
  · rw [clamp_child_viewport_eq s r, clamp_child_viewport_eq]

/-- C4: each bar-bounds computation returns `none` exactly when the
viewport length is at least the content length on its axis, and in the
`some` branch (for nonnegative viewport lengths) both divisors of the
percent calculations are nonzero. -/
theorem calc_bar_bounds_none_iff (s : ScrollData) :
    (calc_vertical_bar_bounds s = none ↔
      s.child_size.height ≤ s.child_viewport.height) ∧
    (calc_horizontal_bar_bounds s = none ↔
      s.child_size.width ≤ s.child_viewport.width) ∧
    (0 ≤ s.child_viewport.height → s.child_viewport.height < s.child_size.height →
      s.child_size.height ≠ 0 ∧
      s.child_size.height - s.child_viewport.height ≠ 0) ∧
    (0 ≤ s.child_viewport.width → s.child_viewport.width < s.child_size.width →
      s.child_size.width ≠ 0 ∧
      s.child_size.width - s.child_viewport.width ≠ 0) := by
  refine ⟨?_, ?_, ?_, ?_⟩
  · unfold calc_vertical_bar_bounds
    simp only [Rect.size]
    split_ifs with h
    · simpa using h
    · simpa using h
  · unfold calc_horizontal_bar_bounds
    simp only [Rect.size]
    split_ifs with h
    · simpa using h
    · simpa using h
  · intro h0 h1
    constructor <;> intro hc <;> linarith
  · intro h0 h1
    constructor <;> intro hc <;> linarith

/-- Witness for C4: with content `1000×1000` and viewport `100×100`
both divisors are nonzero on the vertical axis. -/
theorem calc_bar_bounds_none_iff_witness :
    exState.child_size.height ≠ 0 ∧
    exState.child_size.height - exState.child_viewport.height ≠ 0 :=
  (calc_bar_bounds_none_iff exState).2.2.1
    (by norm_num [exState, Rect.height]) (by norm_num [exState, Rect.height])

theorem viewport_invariant_set_held (s : ScrollData) (h : BarHeldState) :
    viewport_invariant { s with held := h } ↔ viewport_invariant s :=
  Iff.rfl

/-- C2: every viewport-mutating operation of the controller leaves the
state satisfying the core invariant; the direct commands and the layout
pass even establish it from any state, and the event handler preserves
it. -/
theorem operations_preserve_viewport_invariant (s : ScrollData) (p : Point)
    (v : Vec2) (r : Rect) (ls ncs : Size) (pl pr2 pt pb : ℚ)
    (e : Event) (ch lh : Bool) :
    viewport_invariant (scroll_to s p) ∧
    viewport_invariant (scroll_delta s v) ∧
    viewport_invariant (pan_to_visible s r) ∧
    viewport_invariant (compute_layout s ls pl pr2 pt pb ncs) ∧
    (viewport_invariant s → viewport_invariant (handle_event s e ch lh).1) := by
  refine ⟨clamp_establishes_invariant _ _, clamp_establishes_invariant _ _,
    clamp_establishes_invariant _ _, clamp_establishes_invariant _ _, ?_⟩
  intro hinv
  cases e with
  | pointerDown pos primary =>
      simp only [handle_event]
      split_ifs <;>
        first
          | exact hinv
          | exact clamp_establishes_invariant _ _
  | pointerUp pos => exact hinv
  | pointerMove pos =>
      rcases hheld : s.held with _ | ⟨o, iso⟩ | ⟨o, iso⟩ <;>
        simp only [handle_event, hheld] <;>
        split_ifs <;>
        first
          | exact hinv
          | exact clamp_establishes_invariant _ _
  | pointerWheel delta =>
      simp only [handle_event]
      split_ifs <;>
        first
          | exact hinv
          | exact clamp_establishes_invariant _ _

/-- Witness for C2: the event part applied at the example state and a
wheel event. -/
theorem operations_preserve_viewport_invariant_witness :
    viewport_invariant
      (handle_event exState (Event.pointerWheel ⟨0, 20⟩) false false).1 :=
  (operations_preserve_viewport_invariant exState ⟨0, 0⟩ ⟨0, 0⟩ ⟨0, 0, 0, 0⟩
      ⟨0, 0⟩ ⟨0, 0⟩ 0 0 0 0 (Event.pointerWheel ⟨0, 20⟩) false false).2.2.2.2
    (by norm_num [viewport_invariant, exState, Rect.width, Rect.height])

/-- Counterexample to C5 as stated: with content `1000×1000`, viewport
`100×100` scrolled to `(450, 0)` and thickness `10`, both bars are
present and the horizontal thumb offset is `40`, not
`ceil((viewport_length - thumb_length) * percent_scrolled) = 45` —
the code additionally subtracts the vertical bar's thickness from the
track. -/
theorem horizontal_thumb_offset_claim_false :
    calc_horizontal_bar_bounds exStateScrolled = some ⟨490, 90, 500, 100⟩ ∧
    ¬ ((490 : ℚ) - 450 =
        ((⌈(((100 : ℚ) - ((500 : ℚ) - 490)) * (450 / (1000 - 100))) ⌉ : ℤ) : ℚ)) := by
  constructor
  · norm_num [calc_horizontal_bar_bounds, exStateScrolled, exState, Rect.size,
      Rect.width, Rect.height, Rect.origin, Point.to_vec2, SCROLLBAR_MIN_SIZE,
      Int.ceil_ofNat]
  · intro hc
    rw [show ((100 : ℚ) - ((500 : ℚ) - 490)) * (450 / (1000 - 100)) = 45 by norm_num,
      Int.ceil_ofNat] at hc
    norm_num at hc

/-- The vertical thumb length as computed in
`calc_vertical_bar_bounds`:
`max(ceil(percent_visible * viewport_height), thickness)`. -/
def vertical_thumb_length (s : ScrollData) : ℚ :=
  max ((⌈s.child_viewport.height / s.child_size.height *
      s.child_viewport.height⌉ : ℤ) : ℚ)
    s.scroll_bar_style.thickness

/-- The vertical thumb offset as computed in
`calc_vertical_bar_bounds`:
`ceil((viewport_height - thumb_length) * percent_scrolled)`. -/
def vertical_thumb_offset (s : ScrollData) : ℚ :=
  ((⌈(s.child_viewport.height - vertical_thumb_length s) *
      (s.child_viewport.y0 /
        (s.child_size.height - s.child_viewport.height))⌉ : ℤ) : ℚ)

/-- The horizontal thumb length as computed in
`calc_horizontal_bar_bounds`; the minimum here is the global
`SCROLLBAR_MIN_SIZE`, not the configured thickness. -/
def horizontal_thumb_length (s : ScrollData) : ℚ :=
  max ((⌈s.child_viewport.width / s.child_size.width *
      s.child_viewport.width⌉ : ℤ) : ℚ)
    SCROLLBAR_MIN_SIZE

/-- The track shortening applied to the horizontal bar when the
vertical bar is also present. -/
def horizontal_padding (s : ScrollData) : ℚ :=
  if s.child_size.height ≤ s.child_viewport.height then 0
  else s.scroll_bar_style.thickness

/-- The horizontal thumb offset as computed in
`calc_horizontal_bar_bounds`:
`ceil((viewport_width - thumb_length - horizontal_padding) * percent_scrolled)`. -/
def horizontal_thumb_offset (s : ScrollData) : ℚ :=
  ((⌈(s.child_viewport.width - horizontal_thumb_length s - horizontal_padding s) *
      (s.child_viewport.x0 /
        (s.child_size.width - s.child_viewport.width))⌉ : ℤ) : ℚ)

theorem calc_vertical_bar_bounds_eq (s : ScrollData)
    (h : s.child_viewport.height < s.child_size.height) :
    calc_vertical_bar_bounds s =
      some ⟨s.child_viewport.x0 + s.child_viewport.width -
              s.scroll_bar_style.thickness,
            s.child_viewport.y0 + vertical_thumb_offset s,
            s.child_viewport.x0 + s.child_viewport.width,
            s.child_viewport.y0 +
              (vertical_thumb_offset s + vertical_thumb_length s)⟩ := by
  unfold calc_vertical_bar_bounds vertical_thumb_offset vertical_thumb_length
  simp only [Rect.size, Rect.origin, Point.to_vec2, ge_iff_le]
  rw [if_neg (not_le.mpr h)]
  simp only [Option.some.injEq, Rect.mk.injEq]
  refine ⟨by ring_nf, by ring_nf, by ring_nf, by ring_nf⟩

theorem calc_horizontal_bar_bounds_eq (s : ScrollData)
    (h : s.child_viewport.width < s.child_size.width) :
    calc_horizontal_bar_bounds s =
      some ⟨s.child_viewport.x0 + horizontal_thumb_offset s,
            s.child_viewport.y0 + s.child_viewport.height -
              s.scroll_bar_style.thickness,
            s.child_viewport.x0 +
              (horizontal_thumb_offset s + horizontal_thumb_length s),
            s.child_viewport.y0 + s.child_viewport.height⟩ := by
  unfold calc_horizontal_bar_bounds horizontal_thumb_offset
    horizontal_thumb_length horizontal_padding
  simp only [Rect.size, Rect.origin, Point.to_vec2, ge_iff_le]
  rw [if_neg (not_le.mpr h)]
  simp only [Option.some.injEq, Rect.mk.injEq]
  split_ifs with hp
  · refine ⟨by ring_nf, by ring_nf, by ring_nf, by ring_nf⟩
  · refine ⟨by ring_nf, by ring_nf, by ring_nf, by ring_nf⟩

/-- C5 (amended): for each present bar the thumb length is
`max(minimum_thumb_size, ceil(percent_visible * viewport_length))`
(vertical minimum = configured thickness, horizontal minimum = the
global `SCROLLBAR_MIN_SIZE`), the vertical thumb offset is
`ceil((viewport_length - thumb_length) * percent_scrolled)`, and the
horizontal thumb offset is
`ceil((viewport_length - thumb_length - horizontal_padding) * percent_scrolled)`
where `horizontal_padding` is the bar thickness when the vertical bar
is also present and `0` otherwise. -/
theorem bar_thumb_geometry (s : ScrollData) :
    (∀ b, calc_vertical_bar_bounds s = some b →
      b.y1 - b.y0 =
        max s.scroll_bar_style.thickness
          ((⌈s.child_viewport.height / s.child_size.height *
              s.child_viewport.height⌉ : ℤ) : ℚ) ∧
      b.y0 - s.child_viewport.y0 =
        ((⌈(s.child_viewport.height - (b.y1 - b.y0)) *
            (s.child_viewport.y0 /
              (s.child_size.height - s.child_viewport.height))⌉ : ℤ) : ℚ)) ∧
    (∀ b, calc_horizontal_bar_bounds s = some b →
      b.x1 - b.x0 =
        max SCROLLBAR_MIN_SIZE
          ((⌈s.child_viewport.width / s.child_size.width *
              s.child_viewport.width⌉ : ℤ) : ℚ) ∧
      b.x0 - s.child_viewport.x0 =
        ((⌈(s.child_viewport.width - (b.x1 - b.x0) -
              (if s.child_size.height ≤ s.child_viewport.height then 0
               else s.scroll_bar_style.thickness)) *
            (s.child_viewport.x0 /
              (s.child_size.width - s.child_viewport.width))⌉ : ℤ) : ℚ)) := by
  constructor
  · intro b hb
    have h : s.child_viewport.height < s.child_size.height := by
      by_contra hc
      rw [((calc_bar_bounds_none_iff s).1).mpr (not_lt.mp hc)] at hb
      exact Option.noConfusion hb
    rw [calc_vertical_bar_bounds_eq s h, Option.some.injEq] at hb
    subst hb
    constructor
    · show s.child_viewport.y0 + (vertical_thumb_offset s + vertical_thumb_length s) -
        (s.child_viewport.y0 + vertical_thumb_offset s) = _
      rw [max_comm s.scroll_bar_style.thickness]
      unfold vertical_thumb_length
      ring_nf
    · show s.child_viewport.y0 + vertical_thumb_offset s - s.child_viewport.y0 = _
      rw [show s.child_viewport.height -
            (s.child_viewport.y0 + (vertical_thumb_offset s + vertical_thumb_length s) -
              (s.child_viewport.y0 + vertical_thumb_offset s)) =
          s.child_viewport.height - vertical_thumb_length s by ring]
      unfold vertical_thumb_offset
      ring_nf
  · intro b hb
    have h : s.child_viewport.width < s.child_size.width := by
      by_contra hc
      rw [((calc_bar_bounds_none_iff s).2.1).mpr (not_lt.mp hc)] at hb
      exact Option.noConfusion hb
    rw [calc_horizontal_bar_bounds_eq s h, Option.some.injEq] at hb
    subst hb
    constructor
    · show s.child_viewport.x0 + (horizontal_thumb_offset s + horizontal_thumb_length s) -
        (s.child_viewport.x0 + horizontal_thumb_offset s) = _
      rw [max_comm SCROLLBAR_MIN_SIZE]
      unfold horizontal_thumb_length
      ring_nf
    · show s.child_viewport.x0 + horizontal_thumb_offset s - s.child_viewport.x0 = _
      rw [show s.child_viewport.width -
            (s.child_viewport.x0 + (horizontal_thumb_offset s + horizontal_thumb_length s) -
              (s.child_viewport.x0 + horizontal_thumb_offset s)) -
            (if s.child_size.height ≤ s.child_viewport.height then 0
             else s.scroll_bar_style.thickness) =
          s.child_viewport.width - horizontal_thumb_length s - horizontal_padding s by
        unfold horizontal_padding; ring]
      unfold horizontal_thumb_offset
      ring_nf

/-- Witness for C5 (amended) at the spec scenario: content `1000×1000`,
viewport `100×100` at origin, thickness `10` — the vertical thumb has
length `10` (the minimum) at offset `0`. -/
theorem bar_thumb_geometry_witness :
    (⟨90, 0, 100, 10⟩ : Rect).y1 - (⟨90, 0, 100, 10⟩ : Rect).y0 =
      max exState.scroll_bar_style.thickness
        ((⌈exState.child_viewport.height / exState.child_size.height *
            exState.child_viewport.height⌉ : ℤ) : ℚ) ∧
    (⟨90, 0, 100, 10⟩ : Rect).y0 - exState.child_viewport.y0 =
      ((⌈(exState.child_viewport.height -
            ((⟨90, 0, 100, 10⟩ : Rect).y1 - (⟨90, 0, 100, 10⟩ : Rect).y0)) *
          (exState.child_viewport.y0 /
            (exState.child_size.height - exState.child_viewport.height))⌉ : ℤ) : ℚ) :=
  (bar_thumb_geometry exState).1 ⟨90, 0, 100, 10⟩
    (by norm_num [calc_vertical_bar_bounds, exState, Rect.size, Rect.width,
      Rect.height, Rect.origin, Point.to_vec2, Int.ceil_ofNat])

theorem point_within_vertical_bar_set_held (s : ScrollData) (h : BarHeldState)
    (p : Point) :
    point_within_vertical_bar { s with held := h } p =
      point_within_vertical_bar s p := rfl

theorem point_within_horizontal_bar_set_held (s : ScrollData) (h : BarHeldState)
    (p : Point) :
    point_within_horizontal_bar { s with held := h } p =
      point_within_horizontal_bar s p := rfl

theorem point_hits_vertical_bar_set_held (s : ScrollData) (h : BarHeldState)
    (p : Point) :
    point_hits_vertical_bar { s with held := h } p =
      point_hits_vertical_bar s p := rfl

theorem point_hits_horizontal_bar_set_held (s : ScrollData) (h : BarHeldState)
    (p : Point) :
    point_hits_horizontal_bar { s with held := h } p =
      point_hits_horizontal_bar s p := rfl

theorem click_vertical_bar_area_set_held (s : ScrollData) (h : BarHeldState)
    (pos : Point) :
    click_vertical_bar_area { s with held := h } pos =
      { click_vertical_bar_area s pos with held := h } := rfl

theorem click_horizontal_bar_area_set_held (s : ScrollData) (h : BarHeldState)
    (pos : Point) :
    click_horizontal_bar_area { s with held := h } pos =
      { click_horizontal_bar_area s pos with held := h } := rfl

/-- C6: a primary pointer-down inside a bar's band but off its thumb
(bars not hidden) performs the page jump via `clamp` (the candidate
origin is the code's `pos/viewport * content - viewport/2` formula),
then immediately enters the `Dragging` state for that axis anchored at
the pointer coordinate and the post-jump origin, consuming the
event. -/
theorem track_click_page_jump (s : ScrollData) (pos : Point) (ch lh : Bool)
    (hhide : s.scroll_bar_style.hide = false) :
    (point_within_vertical_bar s (pos.addVec s.child_viewport.origin.to_vec2) = true →
     point_hits_vertical_bar s (pos.addVec s.child_viewport.origin.to_vec2) = false →
     handle_event s (Event.pointerDown pos true) ch lh =
       ({ click_vertical_bar_area s pos with
          held := BarHeldState.vertical pos.y
            (click_vertical_bar_area s pos).child_viewport.origin.to_vec2 }, true) ∧
     click_vertical_bar_area s pos =
       scroll_to s ⟨s.child_viewport.origin.x,
         pos.y / s.actual_rect.height * s.child_size.height -
           s.actual_rect.height / 2⟩) ∧
    (point_within_vertical_bar s (pos.addVec s.child_viewport.origin.to_vec2) = false →
     point_within_horizontal_bar s (pos.addVec s.child_viewport.origin.to_vec2) = true →
     point_hits_horizontal_bar s (pos.addVec s.child_viewport.origin.to_vec2) = false →
     handle_event s (Event.pointerDown pos true) ch lh =
       ({ click_horizontal_bar_area s pos with
          held := BarHeldState.horizontal pos.x
            (click_horizontal_bar_area s pos).child_viewport.origin.to_vec2 }, true) ∧
     click_horizontal_bar_area s pos =
       scroll_to s ⟨pos.x / s.actual_rect.width * s.child_size.width -
           s.actual_rect.width / 2, s.child_viewport.origin.y⟩) := by
  constructor
  · intro hw hh2
    refine ⟨?_, rfl⟩
    simp only [handle_event]
    rw [if_pos ⟨hhide, trivial⟩]
    simp only [point_within_vertical_bar_set_held, point_hits_vertical_bar_set_held,
      hw, hh2, if_true, Bool.false_eq_true, if_false]
    rfl
  · intro hw hh2 hh3
    refine ⟨?_, rfl⟩
    simp only [handle_event]
    rw [if_pos ⟨hhide, trivial⟩]
    simp only [point_within_vertical_bar_set_held, point_within_horizontal_bar_set_held,
      point_hits_horizontal_bar_set_held, hw, hh2, hh3, if_true,
      Bool.false_eq_true, if_false]
    rfl

/-- Witness for C6: in the example state a primary click at `(95, 50)`
lies in the vertical band but off the thumb, so the controller page
jumps and starts a vertical drag at the new origin. -/
theorem track_click_page_jump_witness :
    handle_event exState (Event.pointerDown ⟨95, 50⟩ true) false false =
      ({ click_vertical_bar_area exState ⟨95, 50⟩ with
         held := BarHeldState.vertical (Point.mk 95 50).y
           (click_vertical_bar_area exState ⟨95, 50⟩).child_viewport.origin.to_vec2 },
       true) ∧
    click_vertical_bar_area exState ⟨95, 50⟩ =
      scroll_to exState ⟨exState.child_viewport.origin.x,
        (Point.mk 95 50).y / exState.actual_rect.height * exState.child_size.height -
          exState.actual_rect.height / 2⟩ :=
  (track_click_page_jump exState ⟨95, 50⟩ false false rfl).1
    (by norm_num [point_within_vertical_bar, calc_vertical_bar_bounds, exState,
      Rect.size, Rect.origin, Point.to_vec2, Point.addVec, Rect.width, Rect.height,
      Int.ceil_ofNat])
    (by norm_num [point_hits_vertical_bar, calc_vertical_bar_bounds, exState,
      Rect.size, Rect.origin, Point.to_vec2, Point.addVec, Rect.width, Rect.height,
      Rect.contains, Int.ceil_ofNat])

/-- C7: any event sequence ending in pointer-up leaves the drag state
`Idle`, and a pointer-move processed while `Idle` never mutates the
state; with the child not consuming it, it is consumed only over a
band. -/
theorem pointer_up_resets_drag (s : ScrollData)
    (es : List (Event × Bool × Bool)) (p q : Point) (ch lh ch2 lh2 : Bool) :
    (process_events s (es ++ [(Event.pointerUp p, ch, lh)])).held =
      BarHeldState.none ∧
    (s.held = BarHeldState.none →
      (handle_event s (Event.pointerMove q) ch2 lh2).1 = s ∧
      ((handle_event s (Event.pointerMove q) false lh2).2 = true →
        point_within_vertical_bar s (q.addVec s.child_viewport.origin.to_vec2) = true ∨
        point_within_horizontal_bar s (q.addVec s.child_viewport.origin.to_vec2) = true)) := by
  constructor
  · simp [process_events, List.foldl_append, handle_event]
  · intro h
    constructor
    · simp only [handle_event, h]
      split_ifs <;> rfl
    · simp only [handle_event, h]
      split_ifs with h1 h2 <;> intro hc
      · exact h2
      · exact absurd hc (by simp)
      · exact absurd hc (by simp)

/-- Witness for C7 at the example state. -/
theorem pointer_up_resets_drag_witness :
    (process_events exState [(Event.pointerUp ⟨0, 0⟩, false, false)]).held =
      BarHeldState.none ∧
    (handle_event exState (Event.pointerMove ⟨0, 0⟩) false false).1 = exState :=
  ⟨(pointer_up_resets_drag exState [] ⟨0, 0⟩ ⟨0, 0⟩ false false false false).1,
   ((pointer_up_resets_drag exState [] ⟨0, 0⟩ ⟨0, 0⟩ false false false false).2 rfl).1⟩

/-- C8: a wheel event not consumed by the child or a listener, with the
axis-swap flag set and delta `(0, dy)` (`dy ≠ 0`), is applied as
`(dy, 0)` via `clamp`; and the handler reports the event fully handled
exactly when the propagate-wheel flag is `false`, for any delta. -/
theorem wheel_axis_swap_propagate (s : ScrollData) (delta : Vec2)
    (hswap : s.vertical_scroll_as_horizontal = true)
    (hx : delta.x = 0) (hy : delta.y ≠ 0) :
    (handle_event s (Event.pointerWheel delta) false false).1 =
      clamp_child_viewport s (s.child_viewport.translate ⟨delta.y, 0⟩) ∧
    ∀ d2 : Vec2, (handle_event s (Event.pointerWheel d2) false false).2 =
      !s.propagate_pointer_wheel := by
  constructor
  · simp only [handle_event, Bool.false_eq_true, if_false]
    rw [if_pos ⟨hswap, hx, hy⟩, hx]
  · intro d2
    simp only [handle_event, Bool.false_eq_true, if_false]

/-- Witness for C8: wheel delta `(0, -20)` with axis-swap enabled. -/
theorem wheel_axis_swap_propagate_witness :
    (handle_event exStateSwap (Event.pointerWheel ⟨0, -20⟩) false false).1 =
      clamp_child_viewport exStateSwap
        (exStateSwap.child_viewport.translate ⟨(Vec2.mk 0 (-20)).y, 0⟩) ∧
    ∀ d2 : Vec2, (handle_event exStateSwap (Event.pointerWheel d2) false false).2 =
      !exStateSwap.propagate_pointer_wheel :=
  wheel_axis_swap_propagate exStateSwap ⟨0, -20⟩ rfl rfl (by norm_num)

/-- C10: a primary pointer-down (bars not hidden) at a point inside
both bands lands in the vertical branch of the else-if chain: the
resulting drag state is vertical, never horizontal, and the event is
consumed. -/
theorem corner_click_vertical_precedence (s : ScrollData) (pos : Point)
    (ch lh : Bool) (hhide : s.scroll_bar_style.hide = false)
    (hv : point_within_vertical_bar s (pos.addVec s.child_viewport.origin.to_vec2) = true)
    (_hh : point_within_horizontal_bar s (pos.addVec s.child_viewport.origin.to_vec2) = true) :
    (∃ a b, (handle_event s (Event.pointerDown pos true) ch lh).1.held =
      BarHeldState.vertical a b) ∧
    (handle_event s (Event.pointerDown pos true) ch lh).2 = true ∧
    ∀ a b, (handle_event s (Event.pointerDown pos true) ch lh).1.held ≠
      BarHeldState.horizontal a b := by
  simp only [handle_event]
  rw [if_pos ⟨hhide, trivial⟩]
  simp only [point_within_vertical_bar_set_held, hv, if_true]
  split_ifs with h1
  · exact ⟨⟨_, _, rfl⟩, rfl, fun a b hc => BarHeldState.noConfusion hc⟩
  · exact ⟨⟨_, _, rfl⟩, rfl, fun a b hc => BarHeldState.noConfusion hc⟩

/-- Witness for C10: the corner point `(95, 95)` of the example state
lies in both bands; the resulting drag state is vertical. -/
theorem corner_click_vertical_precedence_witness :
    (∃ a b, (handle_event exState (Event.pointerDown ⟨95, 95⟩ true) false false).1.held =
      BarHeldState.vertical a b) ∧
    (handle_event exState (Event.pointerDown ⟨95, 95⟩ true) false false).2 = true ∧
    ∀ a b, (handle_event exState (Event.pointerDown ⟨95, 95⟩ true) false false).1.held ≠
      BarHeldState.horizontal a b :=
  corner_click_vertical_precedence exState ⟨95, 95⟩ false false rfl
    (by norm_num [point_within_vertical_bar, calc_vertical_bar_bounds, exState,
      Rect.size, Rect.origin, Point.to_vec2, Point.addVec, Rect.width, Rect.height,
      Int.ceil_ofNat])
    (by norm_num [point_within_horizontal_bar, calc_horizontal_bar_bounds, exState,
      Rect.size, Rect.origin, Point.to_vec2, Point.addVec, Rect.width, Rect.height,
      SCROLLBAR_MIN_SIZE, Int.ceil_ofNat])

theorem closest_on_axis_eq_zero (val minv maxv : ℚ) (h1 : minv ≤ val)
    (h2 : val ≤ maxv) : closest_on_axis val minv maxv = 0 := by
  unfold closest_on_axis
  split_ifs with ha hb
  · rfl
  · rw [le_antisymm hb h1, sub_self]
  · push_neg at ha
    have hvm : minv < val := not_le.mp hb
    rw [le_antisymm h2 (ha hvm), sub_self]

theorem with_origin_self (r : Rect) :
    r.with_origin (r.origin.addVec ⟨0, 0⟩) = r := by
  obtain ⟨a, b, c, d⟩ := r
  simp only [Rect.with_origin, Point.addVec, Rect.origin, Rect.width, Rect.height,
    Rect.mk.injEq]
  refine ⟨by ring, by ring, by ring, by ring⟩

/-- C9: when the target rect (its size clamped to the viewport's size)
already lies inside the current viewport on both axes and the current
viewport satisfies the clamp invariant, `pan_to_visible` computes all
per-axis deltas as `0` and leaves the state unchanged. -/
theorem pan_to_visible_noop (s : ScrollData) (r : Rect)
    (hinv : viewport_invariant s)
    (hrw : 0 ≤ r.width) (hrh : 0 ≤ r.height)
    (hvw : 0 ≤ s.child_viewport.width) (hvh : 0 ≤ s.child_viewport.height)
    (hx0 : s.child_viewport.x0 ≤ r.x0)
    (hx1 : r.x0 + min r.width s.child_viewport.width ≤ s.child_viewport.x1)
    (hy0 : s.child_viewport.y0 ≤ r.y0)
    (hy1 : r.y0 + min r.height s.child_viewport.height ≤ s.child_viewport.y1) :
    pan_to_visible s r = s ∧
    closest_on_axis
      (Rect.min_x (r.with_size ⟨min r.width s.child_viewport.width,
        min r.height s.child_viewport.height⟩))
      s.child_viewport.min_x s.child_viewport.max_x = 0 ∧
    closest_on_axis
      (Rect.max_x (r.with_size ⟨min r.width s.child_viewport.width,
        min r.height s.child_viewport.height⟩))
      s.child_viewport.min_x s.child_viewport.max_x = 0 ∧
    closest_on_axis
      (Rect.min_y (r.with_size ⟨min r.width s.child_viewport.width,
        min r.height s.child_viewport.height⟩))
      s.child_viewport.min_y s.child_viewport.max_y = 0 ∧
    closest_on_axis
      (Rect.max_y (r.with_size ⟨min r.width s.child_viewport.width,
        min r.height s.child_viewport.height⟩))
      s.child_viewport.min_y s.child_viewport.max_y = 0 := by
  have htw : (0 : ℚ) ≤ min r.width s.child_viewport.width := le_min hrw hvw
  have hth : (0 : ℚ) ≤ min r.height s.child_viewport.height := le_min hrh hvh
  have hcx : s.child_viewport.x0 ≤ s.child_viewport.x1 := by
    unfold Rect.width at hvw
    linarith
  have hcy : s.child_viewport.y0 ≤ s.child_viewport.y1 := by
    unfold Rect.height at hvh
    linarith
  have hc1 : closest_on_axis
      (Rect.min_x (r.with_size ⟨min r.width s.child_viewport.width,
        min r.height s.child_viewport.height⟩))
      s.child_viewport.min_x s.child_viewport.max_x = 0 := by
    rw [show Rect.min_x (r.with_size ⟨min r.width s.child_viewport.width,
          min r.height s.child_viewport.height⟩) = r.x0 from
        min_eq_left (by simp only [Rect.with_size]; linarith),
      show Rect.min_x s.child_viewport = s.child_viewport.x0 from min_eq_left hcx,
      show Rect.max_x s.child_viewport = s.child_viewport.x1 from max_eq_right hcx]
    exact closest_on_axis_eq_zero _ _ _ hx0 (by linarith)
  have hc2 : closest_on_axis
      (Rect.max_x (r.with_size ⟨min r.width s.child_viewport.width,
        min r.height s.child_viewport.height⟩))
      s.child_viewport.min_x s.child_viewport.max_x = 0 := by
    rw [show Rect.max_x (r.with_size ⟨min r.width s.child_viewport.width,
          min r.height s.child_viewport.height⟩) =
        r.x0 + min r.width s.child_viewport.width from
        max_eq_right (by simp only [Rect.with_size]; linarith),
      show Rect.min_x s.child_viewport = s.child_viewport.x0 from min_eq_left hcx,
      show Rect.max_x s.child_viewport = s.child_viewport.x1 from max_eq_right hcx]
    exact closest_on_axis_eq_zero _ _ _ (by linarith) hx1
  have hc3 : closest_on_axis
      (Rect.min_y (r.with_size ⟨min r.width s.child_viewport.width,
        min r.height s.child_viewport.height⟩))
      s.child_viewport.min_y s.child_viewport.max_y = 0 := by
    rw [show Rect.min_y (r.with_size ⟨min r.width s.child_viewport.width,
          min r.height s.child_viewport.height⟩) = r.y0 from
        min_eq_left (by simp only [Rect.with_size]; linarith),
      show Rect.min_y s.child_viewport = s.child_viewport.y0 from min_eq_left hcy,
      show Rect.max_y s.child_viewport = s.child_viewport.y1 from max_eq_right hcy]
    exact closest_on_axis_eq_zero _ _ _ hy0 (by linarith)
  have hc4 : closest_on_axis
      (Rect.max_y (r.with_size ⟨min r.width s.child_viewport.width,
        min r.height s.child_viewport.height⟩))
      s.child_viewport.min_y s.child_viewport.max_y = 0 := by
    rw [show Rect.max_y (r.with_size ⟨min r.width s.child_viewport.width,
          min r.height s.child_viewport.height⟩) =
        r.y0 + min r.height s.child_viewport.height from
        max_eq_right (by simp only [Rect.with_size]; linarith),
      show Rect.min_y s.child_viewport = s.child_viewport.y0 from min_eq_left hcy,
      show Rect.max_y s.child_viewport = s.child_viewport.y1 from max_eq_right hcy]
    exact closest_on_axis_eq_zero _ _ _ (by linarith) hy1
  refine ⟨?_, hc1, hc2, hc3, hc4⟩
  simp only [pan_to_visible]
  rw [hc1, hc2, hc3, hc4]
  simp only [abs_zero, lt_self_iff_false, gt_iff_lt, if_false]
  rw [with_origin_self]
  exact clamp_fixed_of_invariant s hinv

/-- Witness for C9: the rect `(10,10)–(30,30)` lies inside the example
viewport `(0,0)–(100,100)`, so panning to it changes nothing. -/
theorem pan_to_visible_noop_witness :
    pan_to_visible exState ⟨10, 10, 30, 30⟩ = exState :=
  (pan_to_visible_noop exState ⟨10, 10, 30, 30⟩
    (by norm_num [viewport_invariant, exState, Rect.width, Rect.height])
    (by norm_num [Rect.width]) (by norm_num [Rect.height])
    (by norm_num [exState, Rect.width]) (by norm_num [exState, Rect.height])
    (by norm_num [exState]) (by norm_num [exState, Rect.width, min_def])
    (by norm_num [exState]) (by norm_num [exState, Rect.height, min_def])).1

end FloemScroll
